import Mathlib

set_option maxRecDepth 100000

/-!
Verification of the obinskit-utils macro editor (`edit-macro.py`, `keycodes.py`)
against its natural-language specification.

The development shallowly embeds the Python code: the string-processing
primitives the scripts rely on (`str.split()`, `str.upper()`, `int()`,
`file.readlines()`, dict comprehensions) are modelled explicitly, the data
tables are transcribed verbatim, and the control flow of `main` is modelled as
explicit functions over the session state, with Python exceptions becoming
`Except` errors.
-/

/-! ## Models of the Python primitives used by the scripts -/

/-- The whitespace characters recognised by Python's `str.split()` /
`str.strip()` / `str.isspace()` for the ASCII inputs these scripts handle. -/
def isPySpace (c : Char) : Bool :=
  c = ' ' || c = '\t' || c = '\n' || c = '\r' || c = '\x0b' || c = '\x0c'

/-- Helper for `pySplit`: walks the characters, accumulating the current token
in reverse. -/
def splitWsAux : List Char → List Char → List String
  | [], acc => if acc.isEmpty then [] else [String.mk acc.reverse]
  | c :: rest, acc =>
    if isPySpace c then
      if acc.isEmpty then splitWsAux rest []
      else String.mk acc.reverse :: splitWsAux rest []
    else splitWsAux rest (c :: acc)

/-- Python's `s.split()` with no arguments: split on runs of whitespace,
dropping leading and trailing whitespace, never producing empty tokens.
`s.strip().split()` (as in `from_str`) is equivalent to `s.split()`. -/
def pySplit (s : String) : List String := splitWsAux s.toList []

/-- Helper for `pyReadlines`: split after each newline, keeping the newline at
the end of each line, as Python's `file.readlines()` does. -/
def readlinesAux : List Char → List Char → List String
  | [], acc => if acc.isEmpty then [] else [String.mk acc.reverse]
  | '\n' :: rest, acc => String.mk ('\n' :: acc).reverse :: readlinesAux rest []
  | c :: rest, acc => readlinesAux rest (c :: acc)

/-- Python's `file.readlines()` on the file content `s`: the list of lines,
each retaining its trailing newline (the final line may lack one). -/
def pyReadlines (s : String) : List String := readlinesAux s.toList []

/-- Python's `str.isspace()`: true iff the string is nonempty and every
character is whitespace. -/
def pyIsSpaceStr (s : String) : Bool := !s.isEmpty && s.toList.all isPySpace

/-- Python's `line.startswith('#')`. -/
def pyStartsWithHash (s : String) : Bool :=
  match s.toList with
  | '#' :: _ => true
  | _ => false

/-- ASCII uppercasing of one character, as Python's `str.upper()` acts on the
ASCII tokens compared by `from_str`. -/
def pyUpperChar (c : Char) : Char :=
  if 97 ≤ c.toNat && c.toNat ≤ 122 then Char.ofNat (c.toNat - 32) else c

/-- Python's `str.upper()` restricted to the ASCII strings these scripts
compare (`key.upper() == "KEY_UP"` etc.). -/
def pyUpper (s : String) : String := String.mk (s.toList.map pyUpperChar)

/-- Helper for `pyInt`: reads a nonempty run of decimal digits. -/
def digitsToNatAux : List Char → Nat → Option Nat
  | [], acc => some acc
  | c :: rest, acc =>
    if 48 ≤ c.toNat && c.toNat ≤ 57 then
      digitsToNatAux rest (acc * 10 + (c.toNat - 48))
    else none

/-- Reads a nonempty all-digit character list as a natural number. -/
def digitsToNat : List Char → Option Nat
  | [] => none
  | l => digitsToNatAux l 0

/-- Python's `int(s)` on the clean numeric tokens these scripts pass it:
an optional sign followed by decimal digits; anything else raises
`ValueError`, modelled as `none`. -/
def pyInt (s : String) : Option Int :=
  match s.toList with
  | '-' :: rest => (digitsToNat rest).map (fun n => -(n : Int))
  | '+' :: rest => (digitsToNat rest).map (fun n => (n : Int))
  | l => (digitsToNat l).map (fun n => (n : Int))

/-- Python's `f"{s:8}"`: pad a string on the right with spaces to width 8, as
used to align the kind names in the editable file. -/
def pad8 (s : String) : String :=
  s ++ String.mk (List.replicate (8 - s.length) ' ')

/-! ### Python dict model

`keycodes.py` builds its two lookup tables with dict comprehensions. A Python
dict assigns keys in iteration order; assigning to an existing key overwrites
its value in place (keeping its position), otherwise the pair is appended. We
model a dict as an association list built exactly that way. -/

/-- One assignment `d[k] = v` on a Python dict: overwrite in place if the key
exists, else append. -/
def dictInsert [BEq α] (d : List (α × β)) (k : α) (v : β) : List (α × β) :=
  if d.any (fun kv => kv.1 == k) then
    d.map (fun kv => if kv.1 == k then (k, v) else kv)
  else d ++ [(k, v)]

/-- A Python dict comprehension over `kvs`: repeated assignment starting from
the empty dict, so a later pair with an already-present key overwrites the
earlier value. -/
def pyDictOfList [BEq α] (kvs : List (α × β)) : List (α × β) :=
  kvs.foldl (fun d kv => dictInsert d kv.1 kv.2) []

/-- Python's `d[k]` lookup (successful case); `none` models `KeyError`. -/
def dictGet [BEq α] (d : List (α × β)) (k : α) : Option β :=
  (d.find? (fun kv => kv.1 == k)).map (fun kv => kv.2)

/-- The last value paired with `k` in the raw pair list `kvs`, if any. Used to
state which entry a comprehension-built dict retains for a duplicated key. -/
def lookupLast [BEq α] (kvs : List (α × β)) (k : α) : Option β :=
  (kvs.reverse.find? (fun kv => kv.1 == k)).map (fun kv => kv.2)

/-! ## Embedding of `keycodes.py` -/

/-- One uncommented row of `originalMap` in `keycodes.py`: a legacy id paired
with a dict holding the human-readable `name` and the integer `value` stored in
macro payloads. -/
structure OrigMapEntry where
  id : Int
  name : String
  value : Int
deriving DecidableEq, Repr

/-- Part 1 of 3 of the `originalMap` literal of `keycodes.py`, in source order. -/
def originalMapPart1 : List OrigMapEntry := [
  ⟨1, "Esc", 41⟩,
  ⟨2, "1", 30⟩,
  ⟨3, "2", 31⟩,
  ⟨4, "3", 32⟩,
  ⟨5, "4", 33⟩,
  ⟨6, "5", 34⟩,
  ⟨7, "6", 35⟩,
  ⟨8, "7", 36⟩,
  ⟨9, "8", 37⟩,
  ⟨10, "9", 38⟩,
  ⟨11, "0", 39⟩,
  ⟨12, "-_", 45⟩,
  ⟨13, "=+", 46⟩,
  ⟨14, "Backspace", 42⟩,
  ⟨15, "Tab", 43⟩,
  ⟨16, "Q", 20⟩,
  ⟨17, "W", 26⟩,
  ⟨18, "E", 8⟩,
  ⟨19, "R", 21⟩,
  ⟨20, "T", 23⟩,
  ⟨21, "Y", 28⟩,
  ⟨22, "U", 24⟩,
  ⟨23, "I", 12⟩,
  ⟨24, "O", 18⟩,
  ⟨25, "P", 19⟩,
  ⟨26, "[\x7b", 47⟩,
  ⟨27, "]\x7d", 48⟩,
  ⟨28, "Enter", 40⟩,
  ⟨29, "LeftCtrl", 224⟩,
  ⟨30, "A", 4⟩,
  ⟨31, "S", 22⟩,
  ⟨32, "D", 7⟩,
  ⟨33, "F", 9⟩,
  ⟨34, "G", 10⟩]

/-- Part 2 of 3 of the `originalMap` literal of `keycodes.py`, in source order. -/
def originalMapPart2 : List OrigMapEntry := [
  ⟨35, "H", 11⟩,
  ⟨36, "J", 13⟩,
  ⟨37, "K", 14⟩,
  ⟨38, "L", 15⟩,
  ⟨39, ";:", 51⟩,
  ⟨40, "\"", 52⟩,
  ⟨41, "`~", 53⟩,
  ⟨42, "LeftShift", 225⟩,
  ⟨43, "\\|", 49⟩,
  ⟨44, "Z", 29⟩,
  ⟨45, "X", 27⟩,
  ⟨46, "C", 6⟩,
  ⟨47, "V", 25⟩,
  ⟨48, "B", 5⟩,
  ⟨49, "N", 17⟩,
  ⟨50, "M", 16⟩,
  ⟨51, ",<", 54⟩,
  ⟨52, ".>", 55⟩,
  ⟨53, "/?", 56⟩,
  ⟨54, "RightShift", 229⟩,
  ⟨56, "LeftAlt", 226⟩,
  ⟨57, "Space", 44⟩,
  ⟨58, "CapsLock", 57⟩,
  ⟨59, "F1", 58⟩,
  ⟨60, "F2", 59⟩,
  ⟨61, "F3", 60⟩,
  ⟨62, "F4", 61⟩,
  ⟨63, "F5", 62⟩,
  ⟨64, "F6", 63⟩,
  ⟨65, "F7", 64⟩,
  ⟨66, "F8", 65⟩,
  ⟨67, "F9", 66⟩,
  ⟨68, "F10", 67⟩,
  ⟨69, "NumLock", 83⟩]

/-- Part 3 of 3 of the `originalMap` literal of `keycodes.py`, in source order. -/
def originalMapPart3 : List OrigMapEntry := [
  ⟨70, "Scroll Lock", 71⟩,
  ⟨74, "-", 86⟩,
  ⟨78, "+", 87⟩,
  ⟨83, ".", 99⟩,
  ⟨87, "F11", 68⟩,
  ⟨88, "F12", 69⟩,
  ⟨91, "PrintScreen", 70⟩,
  ⟨3613, "RightCtrl", 228⟩,
  ⟨3639, "PrintScreen", 70⟩,
  ⟨3640, "RightAlt", 230⟩,
  ⟨3653, "Pause", 72⟩,
  ⟨3655, "Home", 74⟩,
  ⟨3657, "PageUp", 75⟩,
  ⟨3663, "End", 77⟩,
  ⟨3665, "PageDown", 78⟩,
  ⟨3666, "Insert", 73⟩,
  ⟨3667, "Delete", 76⟩,
  ⟨3677, "Menu", 101⟩,
  ⟨57416, "↑", 82⟩,
  ⟨57419, "←", 80⟩,
  ⟨57421, "→", 79⟩,
  ⟨57424, "↓", 81⟩,
  ⟨61000, "↑", 82⟩,
  ⟨61001, "PageUp", 75⟩,
  ⟨61003, "←", 80⟩,
  ⟨61005, "→", 79⟩,
  ⟨61007, "End", 77⟩,
  ⟨61008, "↓", 81⟩,
  ⟨61009, "PageDown", 78⟩,
  ⟨61010, "Insert", 73⟩,
  ⟨61011, "Delete", 76⟩,
  ⟨60999, "Home", 74⟩]

/-- The `originalMap` literal of `keycodes.py`, transcribed entry for entry in
source order (the commented-out DUPLICATE rows are not part of the Python
list and so do not appear here); split into parts only to keep elaboration
fast. -/
def originalMap : List OrigMapEntry :=
  originalMapPart1 ++ originalMapPart2 ++ originalMapPart3

/-- The key/value pairs fed to the `keycodes_by_value` dict comprehension, in
iteration order: `_dict["value"]` maps to `(_id, _dict["name"])`. -/
def byValuePairs : List (Int × (Int × String)) :=
  originalMap.map (fun e => (e.value, (e.id, e.name)))

/-- `keycodes_by_value` of `keycodes.py`:
`{_dict["value"]: {"id": _id, "name": _dict["name"]} for _id, _dict in originalMap}`. -/
def keycodes_by_value : List (Int × (Int × String)) := pyDictOfList byValuePairs

/-- The key/value pairs fed to the `keycodes_by_name` dict comprehension, in
iteration order: `_dict["name"]` maps to `(_id, _dict["value"])`. -/
def byNamePairs : List (String × (Int × Int)) :=
  originalMap.map (fun e => (e.name, (e.id, e.value)))

/-- `keycodes_by_name` of `keycodes.py`:
`{_dict["name"]: {"id": _id, "value": _dict["value"]} for _id, _dict in originalMap}`. -/
def keycodes_by_name : List (String × (Int × Int)) := pyDictOfList byNamePairs

/-! ## Embedding of `edit-macro.py`: the event model and codec -/

/-- The spec's error taxonomy, used as the error type of the embedded codec.
Each constructor names the Python failure it abstracts:
`malformedMacro` is the `TypeError` raised by `ObinsKitMacroItemTuple._make`
on a trailing 1- or 2-element tuple; `unknownEventKind` is the `ValueError`
raised by `ObinsKitMacroItemKey(key)` on a tag outside 1..3, and also the
`None` fall-through of `from_str` (whose result then crashes the session with
`AttributeError` at the call site); `unknownKeycode` is the `KeyError` raised
by a failed `keycodes_by_value`/`keycodes_by_name` subscript; `malformedLine`
is the `ValueError` raised by unpacking `split()` into two names or by
`int(value)` on a non-numeric token; `durationOutOfRange` appears in the spec
but corresponds to no code path. -/
inductive MacroError where
  | malformedMacro
  | unknownEventKind
  | unknownKeycode
  | malformedLine
  | durationOutOfRange
deriving DecidableEq, Repr

/-- `ObinsKitMacroItemKey` of `edit-macro.py`: the enumerated first value of
each macro 3-tuple. -/
inductive ObinsKitMacroItemKey where
  | KEY_UP
  | KEY_DOWN
  | WAIT
deriving DecidableEq, Repr

/-- The enum member names, as used by `ObinsKitMacroItemKey.__str__`
(`self.name`). -/
def ObinsKitMacroItemKey.enumName : ObinsKitMacroItemKey → String
  | .KEY_UP => "KEY_UP"
  | .KEY_DOWN => "KEY_DOWN"
  | .WAIT => "WAIT"

/-- `ObinsKitMacroItemKey.to_int`: the fixed integer tag of each kind. -/
def ObinsKitMacroItemKey.to_int : ObinsKitMacroItemKey → Int
  | .KEY_UP => 1
  | .KEY_DOWN => 2
  | .WAIT => 3

/-- The enum call `ObinsKitMacroItemKey(n)`: `some` member for tags 1..3,
`none` models the `ValueError` raised for any other integer. -/
def ObinsKitMacroItemKey.ofTag : Int → Option ObinsKitMacroItemKey
  | 1 => some .KEY_UP
  | 2 => some .KEY_DOWN
  | 3 => some .WAIT
  | _ => none

/-- `ObinsKitMacroItemTuple` of `edit-macro.py`: one macro event, a kind plus
the two payload fields of its persisted 3-integer encoding. -/
structure ObinsKitMacroItemTuple where
  key : ObinsKitMacroItemKey
  value_2 : Int
  value_3 : Int
deriving DecidableEq, Repr

/-- `ObinsKitMacroItemTuple.to_int_macro_value_list`: the 3-integer list
`[self.key.to_int(), self.value_2, self.value_3]`. -/
def ObinsKitMacroItemTuple.to_int_macro_value_list
    (t : ObinsKitMacroItemTuple) : List Int :=
  [t.key.to_int, t.value_2, t.value_3]

/-- `ObinsKitMacroItemTuple.__str__`: the human-editable line for one event.
The kind name is padded to width 8; a KEY event shows the key name looked up
in `keycodes_by_value` (`.error .unknownKeycode` models the `KeyError` when
the keycode is absent); a WAIT event shows `value_2 + value_3 * 256`. -/
def ObinsKitMacroItemTuple.to_str
    (t : ObinsKitMacroItemTuple) : Except MacroError String :=
  match t.key with
  | .WAIT =>
    .ok (pad8 t.key.enumName ++ " " ++ toString (t.value_2 + t.value_3 * 256))
  | _ =>
    match dictGet keycodes_by_value t.value_2 with
    | some e => .ok (pad8 t.key.enumName ++ " " ++ e.2)
    | none => .error .unknownKeycode

/-- `ObinsKitMacroItemTuple.from_str`, the spec's `parseLine`: strip and split
the line into exactly two whitespace-separated tokens (`.error .malformedLine`
models the unpack `ValueError` for any other token count), match the first
token case-insensitively, then: for KEY_UP/KEY_DOWN look the second token up
in `keycodes_by_name` (`.error .unknownKeycode` models the `KeyError`); for
WAIT store `int(value)` whole into `value_2` with `value_3 = 0` — the code
performs no `% 256` split and no range check. A first token matching none of
the three kinds falls off the `if/elif` chain and the Python function returns
`None`, so the session dies with `AttributeError` as soon as the caller uses
the result; `.error .unknownEventKind` models that fall-through. -/
def from_str (strepr : String) : Except MacroError ObinsKitMacroItemTuple :=
  match pySplit strepr with
  | [key, value] =>
    if pyUpper key = "KEY_UP" then
      match dictGet keycodes_by_name value with
      | some e => .ok ⟨.KEY_UP, e.2, 0⟩
      | none => .error .unknownKeycode
    else if pyUpper key = "KEY_DOWN" then
      match dictGet keycodes_by_name value with
      | some e => .ok ⟨.KEY_DOWN, e.2, 0⟩
      | none => .error .unknownKeycode
    else if pyUpper key = "WAIT" then
      match pyInt value with
      | some n => .ok ⟨.WAIT, n, 0⟩
      | none => .error .malformedLine
    else .error .unknownEventKind
  | _ => .error .malformedLine

/-- The spec's `decodeFlat`, carved from `main`: the triple grouping of
line 151 (`[tuple(l[i:i+3]) for i in range(0, len(l), 3)]`) together with
event construction, which the code performs lazily, triple by triple, while
dumping the events (lines 175-177). For each complete triple, in the code's
order of evaluation inside the same `__str__` call: first
`ObinsKitMacroItemKey(self.key)` (line 105; `.unknownEventKind` models its
`ValueError` on a tag outside 1..3), then, for KEY_UP/KEY_DOWN, the
`keycodes_by_value[self.value_2]` subscript (line 107; `.unknownKeycode`
models its `KeyError` when the keycode is absent — WAIT performs no lookup).
Only a trailing 1- or 2-element group reaches `_make` with the wrong arity
(`.malformedMacro`, its `TypeError`), so an offending earlier complete triple
surfaces its own error first. -/
def decodeFlat : List Int → Except MacroError (List ObinsKitMacroItemTuple)
  | [] => .ok []
  | a :: b :: c :: rest =>
    match ObinsKitMacroItemKey.ofTag a with
    | some ObinsKitMacroItemKey.WAIT =>
      match decodeFlat rest with
      | .ok s => .ok (⟨.WAIT, b, c⟩ :: s)
      | .error e => .error e
    | some k =>
      match dictGet keycodes_by_value b with
      | some _ =>
        match decodeFlat rest with
        | .ok s => .ok (⟨k, b, c⟩ :: s)
        | .error e => .error e
      | none => .error .unknownKeycode
    | none => .error .unknownEventKind
  | _ => .error .malformedMacro

/-- The spec's `encodeFlat`, carved from `main` lines 190-192: the
concatenation `new_macro_value += t.to_int_macro_value_list()` over the events
in order. -/
def encodeFlat : List ObinsKitMacroItemTuple → List Int
  | [] => []
  | t :: ts => t.to_int_macro_value_list ++ encodeFlat ts

/-- The instructional header written at the top of the editable temp file
(`edit-macro.py` lines 156-172), verbatim. Every line begins with `#`. -/
def instructions : String :=
  "# INSTRUCTIONS FOR EDITING THIS OBINSKIT MACRO\n" ++
  "#\n" ++
  "# Change existing event values, or add new events, noting:\n" ++
  "#   1. One event per line\n" ++
  "#   2. Each event has 2 tokens separated by whitespace:\n" ++
  "#      1. One of:\n" ++
  "#         1. KEY_DOWN\n" ++
  "#         2. KEY_UP\n" ++
  "#         3. WAIT\n" ++
  "#      2. Either a keycode for a KEY_* event, or a time in msec for a WAIT event.\n" ++
  "#   3. Lines beginning with # are ignored (treated as comments).\n" ++
  "# Example: Press J for 10msec before letting go.\n" ++
  "#   KEY_DOWN J\n" ++
  "#   WAIT     10\n" ++
  "#   KEY_UP   J\n"

/-- The spec's `renderDocument`, carved from `main` lines 153-177: the
instructional header followed by one `__str__` line per event, each written
with a trailing newline. -/
def renderDocument
    (s : List ObinsKitMacroItemTuple) : Except MacroError String :=
  match s.mapM ObinsKitMacroItemTuple.to_str with
  | .ok ls => .ok (instructions ++ String.join (ls.map (fun l => l ++ "\n")))
  | .error e => .error e

/-- The spec's `parseDocument`, carved from `main` lines 187-192: read the
lines back, drop every line starting with `#` and every whitespace-only line,
and parse the remaining lines in order with `from_str`. -/
def parseDocument (text : String) : Except MacroError (List ObinsKitMacroItemTuple) :=
  ((pyReadlines text).filter
    (fun l => !(pyStartsWithHash l) && !(pyIsSpaceStr l))).mapM from_str

/-! ## Embedding of `edit-macro.py`: the session controller -/

/-- Python exceptions surfaced by the `Loaded` stage of `main`. -/
inductive PyExc where
  | indexError
  | assertionError
deriving DecidableEq, Repr

/-- Python truthiness of a 2-tuple, as tested by the statement
`assert(len(selections) == 1, "...")` in `main` line 144: `assert` with
parentheses asserts the *tuple* `(cond, msg)`, and a nonempty tuple is always
truthy, whatever `cond` is — so the assertion can never fire. -/
def pyTupleTruthy (_cond : Bool) (_msg : String) : Bool :=
  true

/-- The assert message of `main` lines 145-147. -/
def assertMsg : String :=
  " rows were SELECTed. There must be exactly one selected row." ++
  " Check your SELECT command."

/-- The `Loaded` stage of `main` (lines 140-149): `selections` is the list of
rows `fetchall` returned for `macro_name`, each row carrying its `macro_value`
string. The code asserts `(len(selections) == 1, msg)` — a tuple, always
truthy — then takes `selections[0][0]`: `.error .indexError` models the
`IndexError` on an empty list; otherwise the first row's value is used, no
matter how many rows matched. -/
def loadedStage (selections : List String) : Except PyExc String :=
  if pyTupleTruthy (selections.length == 1) assertMsg then
    match selections with
    | [] => .error .indexError
    | s :: _ => .ok s
  else .error .assertionError

/-- Outcome of the `Decided` stage. -/
inductive SessionOutcome where
  | skipped
  | persisted
deriving DecidableEq, Repr

/-- Observable result of the tail of `main`: the outcome, whether an `UPDATE`
was executed, and the process exit code. -/
structure DecidedResult where
  outcome : SessionOutcome
  updateIssued : Bool
  exitCode : Int
deriving DecidableEq, Repr

/-- The `Decided` stage of `main` (lines 195-253): compare the re-encoded
`new_macro_value` against the original `int_macro_value` with Python list
equality. Equal: log and `sys.exit(0)` — no `UPDATE`, success. Unequal:
produce the diff and issue the `UPDATE` unless `dry_run`, then commit and
fall off the end of `main` (exit code 0). -/
def decidedStage (int_macro_value new_macro_value : List Int)
    (dry_run : Bool) : DecidedResult :=
  if new_macro_value = int_macro_value then
    ⟨.skipped, false, 0⟩
  else
    ⟨.persisted, !dry_run, 0⟩

/-! ### File and store effects of one invocation of `main` -/

/-- The externally visible file/store effects `main` can perform, each naming
the path it touches. -/
inductive Effect where
  | copyFile (src dst : String)
  | sqlConnect (path : String)
  | sqlSelect (path : String)
  | writeFile (path : String)
  | sqlUpdate (path : String)
  | sqlCommit (path : String)
deriving DecidableEq, Repr

/-- The path an effect writes to (the copy destination, a written file, an
`UPDATE`, a commit), if any; connecting and `SELECT`ing only read. -/
def Effect.writeTarget : Effect → Option String
  | .copyFile _ dst => some dst
  | .sqlConnect _ => none
  | .sqlSelect _ => none
  | .writeFile p => some p
  | .sqlUpdate p => some p
  | .sqlCommit p => some p

/-- The database path an effect addresses through the sqlite connection, if
any. -/
def Effect.sqlTarget : Effect → Option String
  | .copyFile _ _ => none
  | .sqlConnect p => some p
  | .sqlSelect p => some p
  | .writeFile _ => none
  | .sqlUpdate p => some p
  | .sqlCommit p => some p

/-- The ordered effect trace of one invocation of `main` (lines 131-253).
`db_path` is the user-supplied database; `tmp_db_path` the fresh temporary
copy (line 132); `temppath` the editable temp file (line 153);
`html_file_path` the diff page (line 213). The booleans select the exit path:
`loadOk` is false when `fetchall` returns no rows (IndexError at line 149),
`decodeOk` false when decoding/rendering the flat value fails, `editorOk`
false on a nonzero editor exit (line 184, `sys.exit(-1)`), `parseOk` false
when `from_str` fails on an edited line, `unchanged` true when the re-encoded
value equals the original (line 197, `sys.exit(0)`), and `dry_run` suppresses
only the `UPDATE` (lines 245-249). Every branch merely truncates the trace:
after the initial copy *from* `db_path` *to* `tmp_db_path`, every SQL
statement and commit addresses `tmp_db_path` and every file write addresses a
temp path. -/
def mainTrace (db_path tmp_db_path temppath html_file_path : String)
    (loadOk decodeOk editorOk parseOk unchanged dry_run : Bool) :
    List Effect :=
  [Effect.copyFile db_path tmp_db_path,
   Effect.sqlConnect tmp_db_path,
   Effect.sqlSelect tmp_db_path] ++
  if !loadOk then [] else
  if !decodeOk then [] else
  Effect.writeFile temppath ::
  (if !editorOk then [] else
   if !parseOk then [] else
   if unchanged then [] else
   Effect.writeFile html_file_path ::
   ((if dry_run then [] else [Effect.sqlUpdate tmp_db_path]) ++
    [Effect.sqlCommit tmp_db_path]))

/-! ## Well-formedness of flat values -/

/-- Well-formedness of a flat integer list, triple by triple, as the claims
state it: the list divides exactly into 3-element groups; each group's kind
tag is 1, 2 or 3; a KEY_UP/KEY_DOWN group's keycode is present in
`keycodes_by_value`; and both payload fields lie in 0..255. A trailing 1- or
2-element group makes the list ill-formed. -/
def wellFormedFlat : List Int → Bool
  | [] => true
  | a :: b :: c :: rest =>
    (a == 1 || a == 2 || a == 3) &&
    (a == 3 || (dictGet keycodes_by_value b).isSome) &&
    decide (0 ≤ b) && decide (b ≤ 255) &&
    decide (0 ≤ c) && decide (c ≤ 255) &&
    wellFormedFlat rest
  | _ => false

/-- Every complete triple of the list decodes cleanly: a valid kind tag, and
for KEY_UP/KEY_DOWN a keycode present in `keycodes_by_value` (the two checks
`__str__` performs, in that order, on each complete triple). A trailing short
group (never examined before `_make` fails on its arity) is ignored. -/
def validTriples : List Int → Bool
  | [] => true
  | a :: b :: _ :: rest =>
    (a == 1 || a == 2 || a == 3) &&
    (a == 3 || (dictGet keycodes_by_value b).isSome) &&
    validTriples rest
  | _ => true

/-! ## Theorems -/

/-- Helper: decoding a cons of a well-tagged KEY_UP triple whose keycode
resolves, onto a successfully decoded tail. -/
theorem decodeFlat_cons_key_up (a b c : Int) (rest : List Int)
    (hk : ObinsKitMacroItemKey.ofTag a = some .KEY_UP)
    (e : Int × String) (hb : dictGet keycodes_by_value b = some e)
    (s : List ObinsKitMacroItemTuple) (hs : decodeFlat rest = Except.ok s) :
    decodeFlat (a :: b :: c :: rest) = Except.ok (⟨.KEY_UP, b, c⟩ :: s) := by
  simp only [decodeFlat, hk, hb, hs]

/-- Helper: decoding a cons of a well-tagged KEY_DOWN triple whose keycode
resolves, onto a successfully decoded tail. -/
theorem decodeFlat_cons_key_down (a b c : Int) (rest : List Int)
    (hk : ObinsKitMacroItemKey.ofTag a = some .KEY_DOWN)
    (e : Int × String) (hb : dictGet keycodes_by_value b = some e)
    (s : List ObinsKitMacroItemTuple) (hs : decodeFlat rest = Except.ok s) :
    decodeFlat (a :: b :: c :: rest) = Except.ok (⟨.KEY_DOWN, b, c⟩ :: s) := by
  simp only [decodeFlat, hk, hb, hs]

/-- Helper: decoding a cons of a well-tagged WAIT triple (no keycode lookup)
onto a successfully decoded tail. -/
theorem decodeFlat_cons_wait (a b c : Int) (rest : List Int)
    (hk : ObinsKitMacroItemKey.ofTag a = some .WAIT)
    (s : List ObinsKitMacroItemTuple) (hs : decodeFlat rest = Except.ok s) :
    decodeFlat (a :: b :: c :: rest) = Except.ok (⟨.WAIT, b, c⟩ :: s) := by
  simp only [decodeFlat, hk, hs]

/-- C1: for every well-formed flat integer list `v` (length a multiple of 3,
each triple having a valid kind tag in 1..3, a keycode present in the index
for KEY_UP/KEY_DOWN triples, and fields in 0..255), re-encoding the decoded
sequence returns `v` unchanged: `encodeFlat (decodeFlat v) = v`. -/
theorem encodeFlat_decodeFlat_id : ∀ (v : List Int),
    v.length % 3 = 0 → wellFormedFlat v = true →
    ∃ s, decodeFlat v = Except.ok s ∧ encodeFlat s = v
  | [], _, _ => ⟨[], rfl, rfl⟩
  | [a], _, h => by simp [wellFormedFlat] at h
  | [a, b], _, h => by simp [wellFormedFlat] at h
  | a :: b :: c :: rest, hlen, h => by
    have hlen' : rest.length % 3 = 0 := by
      simp only [List.length_cons] at hlen
      omega
    simp only [wellFormedFlat, Bool.and_eq_true, Bool.or_eq_true,
      beq_iff_eq, decide_eq_true_eq] at h
    obtain ⟨⟨⟨⟨⟨⟨htag, hkc⟩, hb0⟩, hb1⟩, hc0⟩, hc1⟩, hrest⟩ := h
    obtain ⟨s, hs, he⟩ := encodeFlat_decodeFlat_id rest hlen' hrest
    rcases htag with (h1 | h1) | h1 <;> subst h1
    · have hsome : (dictGet keycodes_by_value b).isSome = true := by
        rcases hkc with h3 | hsome
        · exact absurd h3 (by decide)
        · exact hsome
      obtain ⟨e, hb⟩ := Option.isSome_iff_exists.mp hsome
      exact ⟨⟨.KEY_UP, b, c⟩ :: s,
        decodeFlat_cons_key_up 1 b c rest rfl e hb s hs,
        by simp [encodeFlat, ObinsKitMacroItemTuple.to_int_macro_value_list,
          ObinsKitMacroItemKey.to_int, he]⟩
    · have hsome : (dictGet keycodes_by_value b).isSome = true := by
        rcases hkc with h3 | hsome
        · exact absurd h3 (by decide)
        · exact hsome
      obtain ⟨e, hb⟩ := Option.isSome_iff_exists.mp hsome
      exact ⟨⟨.KEY_DOWN, b, c⟩ :: s,
        decodeFlat_cons_key_down 2 b c rest rfl e hb s hs,
        by simp [encodeFlat, ObinsKitMacroItemTuple.to_int_macro_value_list,
          ObinsKitMacroItemKey.to_int, he]⟩
    · exact ⟨⟨.WAIT, b, c⟩ :: s,
        decodeFlat_cons_wait 3 b c rest rfl s hs,
        by simp [encodeFlat, ObinsKitMacroItemTuple.to_int_macro_value_list,
          ObinsKitMacroItemKey.to_int, he]⟩

/-- Witness for C1 at the spec's example flat value
`[2,13,0,3,10,0,1,13,0]` ("press J, wait 10ms, release J"). -/
theorem encodeFlat_decodeFlat_id_witness :
    ([2, 13, 0, 3, 10, 0, 1, 13, 0] : List Int).length % 3 = 0 ∧
    wellFormedFlat [2, 13, 0, 3, 10, 0, 1, 13, 0] = true ∧
    ∃ s, decodeFlat [2, 13, 0, 3, 10, 0, 1, 13, 0] = Except.ok s ∧
      encodeFlat s = [2, 13, 0, 3, 10, 0, 1, 13, 0] :=
  ⟨by decide, by decide,
    encodeFlat_decodeFlat_id [2, 13, 0, 3, 10, 0, 1, 13, 0]
      (by decide) (by decide)⟩

/-- C2 counterexample: the claim says the keycode index is built
first-seen-wins, so that for the two entries sharing value 70 ("PrintScreen",
legacy ids 91 and 3639) `byValue[70]` would be the first entry `(91, ...)`.
The dict comprehension in `keycodes.py` in fact lets the later assignment
overwrite: `keycodes_by_value[70]` holds the later entry `(3639, ...)`. -/
theorem keycode_index_first_seen_false :
    dictGet keycodes_by_value 70 = some (3639, "PrintScreen") ∧
    dictGet keycodes_by_value 70 ≠ some (91, "PrintScreen") := by
  constructor
  · decide
  · decide

/-- C2 amended: both mappings are built by a single forward pass in which a
later entry sharing a value or name silently *overwrites* the earlier one
(last-seen wins): for every value and every name occurring in the entry list,
the built dict returns the last-encountered entry; in particular `byValue[70]`
is the later PrintScreen entry, legacy id 3639. -/
theorem keycode_index_last_seen_wins :
    (∀ v ∈ byValuePairs.map Prod.fst,
      dictGet keycodes_by_value v = lookupLast byValuePairs v) ∧
    (∀ n ∈ byNamePairs.map Prod.fst,
      dictGet keycodes_by_name n = lookupLast byNamePairs n) ∧
    dictGet keycodes_by_value 70 = some (3639, "PrintScreen") := by
  refine ⟨?_, ?_, by decide⟩
  · decide
  · decide

/-- Witness for C2's amended theorem at the duplicated value 70. -/
theorem keycode_index_last_seen_wins_witness :
    (70 : Int) ∈ byValuePairs.map Prod.fst ∧
    dictGet keycodes_by_value 70 = lookupLast byValuePairs 70 :=
  ⟨by decide, keycode_index_last_seen_wins.1 70 (by decide)⟩

/-- C3 evaluation at the failing input: the claim says the session fails with
AmbiguousMacroName when more than one row matches and MacroNotFound when none
does. Because `assert(len(selections) == 1, msg)` asserts an always-truthy
tuple, the check never fires: with two matching rows the `Loaded` stage
silently proceeds with the first row's value, and with zero rows it dies with
an `IndexError` at `selections[0]`, not a controller-issued check. -/
theorem loadedStage_ambiguous_proceeds :
    loadedStage ["[2,13,0]", "[1,13,0]"] = Except.ok "[2,13,0]" ∧
    loadedStage [] = Except.error PyExc.indexError :=
  ⟨rfl, rfl⟩

/-- C4 evaluation at the failing input: the claim says parsing a WAIT line
splits the duration `d` into `field2 = d % 256`, `field3 = d / 256`, so that
"WAIT 500" re-encodes to `[3,244,1]`. The code's `from_str` stores the whole
duration in `value_2` with `value_3 = 0`: "WAIT 500" re-encodes to
`[3,500,0]`, not `[3,244,1]`. -/
theorem from_str_wait_no_split :
    (from_str "WAIT 500").map ObinsKitMacroItemTuple.to_int_macro_value_list
      = Except.ok [3, 500, 0] ∧
    ([3, 500, 0] : List Int) ≠ [3, 244, 1] :=
  ⟨rfl, by decide⟩

/-- C5 evaluation at the failing input: the claim says durations ≥ 65536 fail
with DurationOutOfRange. The code's `from_str` applies `int(value)` with no
range check: "WAIT 65536" parses successfully to the event
`(WAIT, 65536, 0)`. -/
theorem from_str_wait_no_range_check :
    from_str "WAIT 65536" = Except.ok ⟨.WAIT, 65536, 0⟩ :=
  rfl

/-- C6 evaluation at the failing input: the claim says
`parseDocument (renderDocument s) = s` for every sequence of resolvable
events with WAIT fields in 0..255. For the single WAIT event with
`field2 = 244`, `field3 = 1` (duration 500 ms) the rendered line is
"WAIT     500", which `from_str` parses back as `(WAIT, 500, 0)`: the round
trip is not the identity. -/
theorem render_parse_wait_not_id :
    (renderDocument [⟨.WAIT, 244, 1⟩]).bind parseDocument
      = Except.ok [⟨.WAIT, 500, 0⟩] ∧
    (renderDocument [⟨.WAIT, 244, 1⟩]).bind parseDocument
      ≠ Except.ok [⟨.WAIT, 244, 1⟩] := by
  have h : (renderDocument [⟨.WAIT, 244, 1⟩]).bind parseDocument
      = Except.ok [⟨.WAIT, 500, 0⟩] := by rfl
  refine ⟨h, ?_⟩
  rw [h]
  intro hc
  have h2 := Except.ok.inj hc
  simp only [List.cons.injEq, ObinsKitMacroItemTuple.mk.injEq] at h2
  omega

/-- C7 counterexample: the claim says every list whose length is not a
multiple of 3 fails with MalformedMacro, and names `decodeFlat [1,2,3,4]` in
particular. On `[1,2,3,4]` the code first processes the complete triple
`(1,2,3)`: the line-176 `__str__` call converts the tag, then subscripts
`keycodes_by_value[2]` — and value 2 is not in the table, so the program dies
with a `KeyError` (UnknownKeycode) before the trailing 1-element group ever
reaches `_make`. Likewise on `[7,2,3,4]` the invalid tag 7 raises the enum
`ValueError` (UnknownEventKind) first. -/
theorem decodeFlat_short_list_counterexample :
    ([1, 2, 3, 4] : List Int).length % 3 ≠ 0 ∧
    decodeFlat [1, 2, 3, 4] = Except.error MacroError.unknownKeycode ∧
    decodeFlat [1, 2, 3, 4] ≠ Except.error MacroError.malformedMacro ∧
    decodeFlat [7, 2, 3, 4] = Except.error MacroError.unknownEventKind := by
  refine ⟨by decide, rfl, ?_, rfl⟩
  intro hc
  exact absurd (Except.error.inj hc) (by decide)

/-- C7 amended: every integer list whose length is not a multiple of 3 makes
decoding fail; it fails with MalformedMacro when every complete triple before
the trailing short group decodes cleanly (valid kind tag, and for
KEY_UP/KEY_DOWN a keycode present in the index), while a complete triple that
does not decode cleanly surfaces its own error (UnknownEventKind or
UnknownKeycode) first. -/
theorem decodeFlat_short_list_fails : ∀ (v : List Int),
    v.length % 3 ≠ 0 →
    (∃ e, decodeFlat v = Except.error e) ∧
    (validTriples v = true →
      decodeFlat v = Except.error MacroError.malformedMacro)
  | [], hlen => absurd rfl hlen
  | [a], _ => ⟨⟨.malformedMacro, rfl⟩, fun _ => rfl⟩
  | [a, b], _ => ⟨⟨.malformedMacro, rfl⟩, fun _ => rfl⟩
  | a :: b :: c :: rest, hlen => by
    have hlen' : rest.length % 3 ≠ 0 := by
      simp only [List.length_cons] at hlen ⊢
      omega
    obtain ⟨⟨e, he⟩, hmal⟩ := decodeFlat_short_list_fails rest hlen'
    cases hk : ObinsKitMacroItemKey.ofTag a with
    | none =>
      refine ⟨⟨.unknownEventKind, by simp only [decodeFlat, hk]⟩, ?_⟩
      intro hv
      simp only [validTriples, Bool.and_eq_true, Bool.or_eq_true,
        beq_iff_eq] at hv
      rcases hv.1.1 with (h1 | h1) | h1 <;> subst h1 <;>
        exact absurd hk (by decide)
    | some k =>
      cases k with
      | WAIT =>
        refine ⟨⟨e, by simp only [decodeFlat, hk, he]⟩, ?_⟩
        intro hv
        simp only [validTriples, Bool.and_eq_true] at hv
        simp only [decodeFlat, hk, hmal hv.2]
      | KEY_UP =>
        cases hb : dictGet keycodes_by_value b with
        | none =>
          refine ⟨⟨.unknownKeycode, by simp only [decodeFlat, hk, hb]⟩, ?_⟩
          intro hv
          simp only [validTriples, Bool.and_eq_true, Bool.or_eq_true,
            beq_iff_eq] at hv
          rcases hv.1.2 with h3 | hsome
          · subst h3
            exact absurd hk (by decide)
          · rw [hb] at hsome
            simp at hsome
        | some kc =>
          refine ⟨⟨e, by simp only [decodeFlat, hk, hb, he]⟩, ?_⟩
          intro hv
          simp only [validTriples, Bool.and_eq_true] at hv
          simp only [decodeFlat, hk, hb, hmal hv.2]
      | KEY_DOWN =>
        cases hb : dictGet keycodes_by_value b with
        | none =>
          refine ⟨⟨.unknownKeycode, by simp only [decodeFlat, hk, hb]⟩, ?_⟩
          intro hv
          simp only [validTriples, Bool.and_eq_true, Bool.or_eq_true,
            beq_iff_eq] at hv
          rcases hv.1.2 with h3 | hsome
          · subst h3
            exact absurd hk (by decide)
          · rw [hb] at hsome
            simp at hsome
        | some kc =>
          refine ⟨⟨e, by simp only [decodeFlat, hk, hb, he]⟩, ?_⟩
          intro hv
          simp only [validTriples, Bool.and_eq_true] at hv
          simp only [decodeFlat, hk, hb, hmal hv.2]

/-- Witness for C7's amended theorem at `[3,10,0,4]`: a cleanly decoding WAIT
triple followed by a trailing 1-element group. -/
theorem decodeFlat_short_list_fails_witness :
    ([3, 10, 0, 4] : List Int).length % 3 ≠ 0 ∧
    validTriples [3, 10, 0, 4] = true ∧
    decodeFlat [3, 10, 0, 4] = Except.error MacroError.malformedMacro :=
  ⟨by decide, by decide,
    (decodeFlat_short_list_fails [3, 10, 0, 4] (by decide)).2 (by decide)⟩

/-- C8: every line that splits into exactly two whitespace-separated tokens
(the token count `from_str` requires before the kind test, per the spec's
MalformedLine precedence) whose first token matches none of KEY_UP, KEY_DOWN,
WAIT case-insensitively is rejected as an unknown event kind. -/
theorem from_str_unknown_kind (line t1 t2 : String)
    (hs : pySplit line = [t1, t2])
    (h1 : pyUpper t1 ≠ "KEY_UP") (h2 : pyUpper t1 ≠ "KEY_DOWN")
    (h3 : pyUpper t1 ≠ "WAIT") :
    from_str line = Except.error MacroError.unknownEventKind := by
  simp only [from_str, hs, if_neg h1, if_neg h2, if_neg h3]

/-- Witness for C8 at the claim's example line "FROB 5". -/
theorem from_str_unknown_kind_witness :
    pySplit "FROB 5" = ["FROB", "5"] ∧
    pyUpper "FROB" ≠ "KEY_UP" ∧ pyUpper "FROB" ≠ "KEY_DOWN" ∧
    pyUpper "FROB" ≠ "WAIT" ∧
    from_str "FROB 5" = Except.error MacroError.unknownEventKind :=
  ⟨by decide, by decide, by decide, by decide,
    from_str_unknown_kind "FROB 5" "FROB" "5" (by decide) (by decide)
      (by decide) (by decide)⟩

/-- C9: at the Decided stage, whenever the re-encoded flat value equals the
original flat value element-wise, the session ends as Skipped: no `UPDATE` is
issued and the process exits with code 0 (success, not an error). -/
theorem decidedStage_equal_skips
    (int_macro_value new_macro_value : List Int) (dry_run : Bool)
    (h : new_macro_value = int_macro_value) :
    decidedStage int_macro_value new_macro_value dry_run
      = ⟨SessionOutcome.skipped, false, 0⟩ := by
  simp [decidedStage, h]

/-- Witness for C9 at the unchanged flat value `[3,10,0]`. -/
theorem decidedStage_equal_skips_witness :
    ([3, 10, 0] : List Int) = [3, 10, 0] ∧
    decidedStage [3, 10, 0] [3, 10, 0] false
      = ⟨SessionOutcome.skipped, false, 0⟩ :=
  ⟨rfl, decidedStage_equal_skips [3, 10, 0] [3, 10, 0] false rfl⟩

/-- Helper: every effect in a `mainTrace` is one of the seven statically
known effects, whatever the branch flags. -/
theorem mainTrace_mem_cases
    (db_path tmp_db_path temppath html_file_path : String)
    (loadOk decodeOk editorOk parseOk unchanged dry_run : Bool) :
    ∀ e ∈ mainTrace db_path tmp_db_path temppath html_file_path
        loadOk decodeOk editorOk parseOk unchanged dry_run,
      e = Effect.copyFile db_path tmp_db_path ∨
      e = Effect.sqlConnect tmp_db_path ∨
      e = Effect.sqlSelect tmp_db_path ∨
      e = Effect.writeFile temppath ∨
      e = Effect.writeFile html_file_path ∨
      e = Effect.sqlUpdate tmp_db_path ∨
      e = Effect.sqlCommit tmp_db_path := by
  intro e he
  cases loadOk <;> cases decodeOk <;> cases editorOk <;> cases parseOk <;>
    cases unchanged <;> cases dry_run <;>
    simp [mainTrace] at he <;> tauto

/-- C10: on every exit path of one invocation, the database file at the
user-supplied `db_path` is never written: the trace starts by copying
`db_path` to the fresh temporary copy, every write effect targets one of the
temporary paths, and every statement issued through the sqlite connection
(connect, SELECT, UPDATE, commit) addresses the temporary copy only. The
hypotheses record that the `tempfile`-created paths are distinct from
`db_path`. -/
theorem mainTrace_never_writes_db
    (db_path tmp_db_path temppath html_file_path : String)
    (loadOk decodeOk editorOk parseOk unchanged dry_run : Bool)
    (h1 : tmp_db_path ≠ db_path) (h2 : temppath ≠ db_path)
    (h3 : html_file_path ≠ db_path) :
    (mainTrace db_path tmp_db_path temppath html_file_path
        loadOk decodeOk editorOk parseOk unchanged dry_run).head?
      = some (Effect.copyFile db_path tmp_db_path) ∧
    (∀ e ∈ mainTrace db_path tmp_db_path temppath html_file_path
        loadOk decodeOk editorOk parseOk unchanged dry_run,
      ∀ p, Effect.writeTarget e = some p → p ≠ db_path) ∧
    (∀ e ∈ mainTrace db_path tmp_db_path temppath html_file_path
        loadOk decodeOk editorOk parseOk unchanged dry_run,
      ∀ p, Effect.sqlTarget e = some p → p = tmp_db_path) := by
  refine ⟨rfl, ?_, ?_⟩
  · intro e he p hp
    rcases mainTrace_mem_cases db_path tmp_db_path temppath html_file_path
        loadOk decodeOk editorOk parseOk unchanged dry_run e he with
      rfl | rfl | rfl | rfl | rfl | rfl | rfl <;>
      simp_all [Effect.writeTarget]
  · intro e he p hp
    rcases mainTrace_mem_cases db_path tmp_db_path temppath html_file_path
        loadOk decodeOk editorOk parseOk unchanged dry_run e he with
      rfl | rfl | rfl | rfl | rfl | rfl | rfl <;>
      simp_all [Effect.sqlTarget]

/-- Witness for C10 at concrete distinct paths (all branch flags true, no dry
run: the longest trace, including the `UPDATE` and the commit). -/
theorem mainTrace_never_writes_db_witness :
    ("/tmp/copy/run.db" : String) ≠ "/home/u/run.db" ∧
    ("/tmp/edit.txt" : String) ≠ "/home/u/run.db" ∧
    ("/tmp/diff/index.html" : String) ≠ "/home/u/run.db" ∧
    ((mainTrace "/home/u/run.db" "/tmp/copy/run.db" "/tmp/edit.txt"
        "/tmp/diff/index.html" true true true true false false).head?
      = some (Effect.copyFile "/home/u/run.db" "/tmp/copy/run.db") ∧
    (∀ e ∈ mainTrace "/home/u/run.db" "/tmp/copy/run.db" "/tmp/edit.txt"
        "/tmp/diff/index.html" true true true true false false,
      ∀ p, Effect.writeTarget e = some p → p ≠ "/home/u/run.db") ∧
    (∀ e ∈ mainTrace "/home/u/run.db" "/tmp/copy/run.db" "/tmp/edit.txt"
        "/tmp/diff/index.html" true true true true false false,
      ∀ p, Effect.sqlTarget e = some p → p = "/tmp/copy/run.db")) :=
  ⟨by decide, by decide, by decide,
    mainTrace_never_writes_db "/home/u/run.db" "/tmp/copy/run.db"
      "/tmp/edit.txt" "/tmp/diff/index.html" true true true true false false
      (by decide) (by decide) (by decide)⟩
